import Mathlib

/-!
# Verification of the token-visibility geometry core

Shallow embedding of `scripts/module.js` of the `fvtt-token-visibility`
module (the area-based line-of-sight test, the constrained token footprint,
the elevation-shadow combination, the 3d range refinement and the test-point
elevation preparation), together with proofs of the specified properties.

Numbers are modelled as `ℚ`.  External geometry collaborators (the Clipper
polygon-clipping library, the `ClockwiseSweepPolygon` sweep, the quadtree
spatial index and the GeometryLib shape methods) are modelled either as
oracle fields of a `GeomOps` record (for opaque host shapes) or as explicit
parameters holding their results, exactly where the source calls out to them.
-/

namespace TokenVisibility

/-- `EPSILON` from `scripts/const.js`: `export const EPSILON = 1e-08;`. -/
def EPSILON : ℚ := 1 / 100000000

/-- `Math.abs` on the rationals. -/
def ratAbs (q : ℚ) : ℚ := if q < 0 then -q else q

/-- Modelled from the spec: the GeometryLib `Number#almostEqual` patch
(not under `src/`); `almost_equal(a, b, epsilon=1e-8)` — true when the two
numbers differ by less than `EPSILON`. -/
def almostEqual (a b : ℚ) : Bool := decide (ratAbs (a - b) < EPSILON)

/-- A 2d point (`PIXI.Point` / plain `{x, y}` objects of the source). -/
structure Pt2 where
  x : ℚ
  y : ℚ
deriving DecidableEq, Repr

/-- A 2d segment with endpoints `A` and `B`, as used for polygon edges and
wall segments throughout the source. -/
structure Seg2 where
  A : Pt2
  B : Pt2
deriving DecidableEq, Repr

/-- Signed orientation of the triple `(a, b, c)` (the standard 2d cross
product used by the host crossing predicates). -/
def orient (a b c : Pt2) : ℚ :=
  (b.x - a.x) * (c.y - a.y) - (b.y - a.y) * (c.x - a.x)

/-- Modelled from the spec: the strict segment-crossing predicate behind the
`p == 0` boundary test (`lineSegmentCrosses` of `scripts/util.js` and the
crossing predicate of GeometryLib `PIXI.Polygon#linesCross`, neither under
`src/`).  Spec §4.4: overlapping colinear edges do NOT count as crossing and
an endpoint merely touching the other segment does NOT count as crossing, so
both orientation products must be strictly negative. -/
def lineSegmentCrosses (a b c d : Pt2) : Bool :=
  decide (orient a b c * orient a b d < 0) && decide (orient c d a * orient c d b < 0)

/-- Drawing colors used by the debug instrumentation (`drawing.COLORS`). -/
inductive Color
  | blue
  | green
  | red
deriving DecidableEq, Repr

/-- A recorded debug-drawing side effect (`drawing.drawShape` /
`drawing.drawPoint`); styling options (width, alpha, radius) are omitted. -/
inductive DrawCmd (σ : Type)
  | shape (s : σ) (color : Color)
  | point (x y z : ℚ) (color : Color)

/-- The operations the source invokes on opaque host shape objects
(`PIXI.Rectangle`, `PIXI.Polygon`, `ClipperPaths`).  Each field corresponds
to one method or `instanceof` test appearing in `scripts/module.js`; the
implementations live in the host/GeometryLib/Clipper, outside this
repository, so they are oracle parameters here. -/
structure GeomOps (σ : Type) where
  /-- `los instanceof ClipperPaths` -/
  isClipperPaths : σ → Bool
  /-- `constrained instanceof PIXI.Rectangle` -/
  isRectangle : σ → Bool
  /-- `ClipperPaths#simplify` -/
  simplify : σ → σ
  /-- `shape.area()` -/
  area : σ → ℚ
  /-- `los.intersectPolygon(constrained)` -/
  intersectPolygon : σ → σ → σ
  /-- `PIXI.Rectangle#toPolygon` -/
  toPolygon : σ → σ
  /-- `bounds.getBounds()` -/
  getBounds : σ → σ
  /-- `shape.iterateEdges()` -/
  iterateEdges : σ → List Seg2
  /-- point-in-rectangle test backing the `inside: true` option of
  `PIXI.Rectangle#lineSegmentIntersects` -/
  containsPoint : σ → Pt2 → Bool
  /-- `ClipperPaths#toPolygons` -/
  toPolygons : σ → List σ
  /-- polygon difference, for the shadow combination (spec §4.2) -/
  difference : σ → σ → σ
  /-- polygon union of a list of shadows (spec §4.2) -/
  unionAll : List σ → σ

/-- Modelled from the spec: GeometryLib `PIXI.Rectangle#lineSegmentIntersects`
(not under `src/`): the segment `a—b` strictly crosses one of the rectangle
edges, or — with `inside: true` — has an endpoint inside the rectangle. -/
def rectLineSegmentIntersects {σ : Type} (ops : GeomOps σ) (rect : σ)
    (a b : Pt2) (inside : Bool) : Bool :=
  (ops.iterateEdges rect).any (fun re => lineSegmentCrosses re.A re.B a b)
    || (inside && (ops.containsPoint rect a || ops.containsPoint rect b))

/-- Modelled from the spec: GeometryLib `PIXI.Polygon#linesCross` (not under
`src/`): some edge of the polygon strictly crosses some edge of the given
list (spec §4.4 strict crossing definition). -/
def linesCross {σ : Type} (ops : GeomOps σ) (bounds : σ) (edges : List Seg2) : Bool :=
  (ops.iterateEdges bounds).any fun be =>
    edges.any fun e => lineSegmentCrosses be.A be.B e.A e.B

/-- `sourceIntersectsBounds` of `scripts/module.js`: does any edge of the
source polygon intersect the bounding rectangle
(`bbox.lineSegmentIntersects(si.A, si.B, { intersectFn: foundry.utils.lineSegmentIntersects })`). -/
def sourceIntersectsBounds {σ : Type} (ops : GeomOps σ) (source bbox : σ) : Bool :=
  (ops.iterateEdges source).any fun si =>
    rectLineSegmentIntersects ops bbox si.A si.B false

/-- `sourceIntersectsPolygonBounds` of `scripts/module.js`: stricter
intersection test between the source polygon and a constrained token bounds;
for a rectangle bounds it delegates to `sourceIntersectsBounds`, otherwise it
filters the source edges by the bounds bounding box and calls `linesCross`. -/
def sourceIntersectsPolygonBounds {σ : Type} (ops : GeomOps σ) (source bounds : σ) : Bool :=
  if ops.isRectangle bounds then sourceIntersectsBounds ops source bounds
  else
    let bbox := ops.getBounds bounds
    let edges := (ops.iterateEdges source).filter fun e =>
      rectLineSegmentIntersects ops bbox e.A e.B true
    linesCross ops bounds edges

/-- `intersectConstrainedShapeWithLOS` of `scripts/module.js`: convert a
rectangle bounds to a polygon, then `los.intersectPolygon(constrained)`. -/
def intersectConstrainedShapeWithLOS {σ : Type} (ops : GeomOps σ) (constrained los : σ) : σ :=
  let constrained := if ops.isRectangle constrained then ops.toPolygon constrained else constrained
  ops.intersectPolygon los constrained

/-- The debug-drawing block at the end of `areaTest` (`scripts/module.js`
lines 508–529): simplify clipper paths again and record the drawn shapes. -/
def areaTestDebugDraws {σ : Type} (ops : GeomOps σ) (hasLOS : Bool)
    (los visibleTokenShape : σ) : List (DrawCmd σ) :=
  let los := if ops.isClipperPaths los then ops.simplify los else los
  let visibleTokenShape :=
    if ops.isClipperPaths visibleTokenShape then ops.simplify visibleTokenShape
    else visibleTokenShape
  (if ops.isClipperPaths los then
      (ops.toPolygons los).map fun poly => DrawCmd.shape poly Color.blue
    else [DrawCmd.shape los Color.blue])
    ++ (if ops.isClipperPaths visibleTokenShape then
          (ops.toPolygons visibleTokenShape).map fun poly =>
            DrawCmd.shape poly (if hasLOS then Color.green else Color.red)
        else [DrawCmd.shape visibleTokenShape (if hasLOS then Color.green else Color.red)])

/-- The area-ratio tail of `areaTest` (`scripts/module.js` lines 498–532),
reached when `percentArea ≠ 0` or the simplified LOS is still a
`ClipperPaths`: intersect the constrained shape with the LOS, bail out on a
(near-)zero seen or token area, otherwise compare the ratio against the
required percentage with an inclusive (almost-equal) threshold. -/
def areaTestRatio {σ : Type} (ops : GeomOps σ) (debug : Bool) (percentArea : ℚ)
    (los constrainedTokenShape : σ) : Bool × List (DrawCmd σ) :=
  let visibleTokenShape := intersectConstrainedShapeWithLOS ops constrainedTokenShape los
  let seenArea := ops.area visibleTokenShape
  if seenArea = 0 ∨ almostEqual seenArea 0 then (false, [])
  else
    let tokenArea := ops.area constrainedTokenShape
    if tokenArea = 0 ∨ almostEqual tokenArea 0 then (false, [])
    else
      let percentSeen := seenArea / tokenArea
      let hasLOS := decide (percentSeen > percentArea) || almostEqual percentSeen percentArea
      (hasLOS, if debug then areaTestDebugDraws ops hasLOS los visibleTokenShape else [])

/-- `areaTest` of `scripts/module.js`: test whether the constrained token
shape is sufficiently visible given the chosen area percentage.  When
`percentArea === 0` and the (possibly simplified) LOS is not a
`ClipperPaths`, a boundary-crossing test decides; otherwise the area-ratio
tail decides.  Returns the boolean together with the recorded debug
drawings. -/
def areaTest {σ : Type} (ops : GeomOps σ) (debug : Bool) (percentArea : ℚ)
    (los constrainedTokenShape : σ) : Bool × List (DrawCmd σ) :=
  if percentArea = 0 then
    let los := if ops.isClipperPaths los then ops.simplify los else los
    if !ops.isClipperPaths los then
      let hasLOS := sourceIntersectsPolygonBounds ops los constrainedTokenShape
      (hasLOS,
        if debug then
          [DrawCmd.shape los Color.blue,
            DrawCmd.shape constrainedTokenShape (if hasLOS then Color.green else Color.red)]
        else [])
    else areaTestRatio ops debug percentArea los constrainedTokenShape
  else areaTestRatio ops debug percentArea los constrainedTokenShape

/-- A wall elevation bound: a finite height in scene units or ±infinity
(`topZ` / `bottomZ` of a wall, tested with `isFinite` in the source). -/
inductive Elev
  | finite (z : ℚ)
  | posInf
  | negInf
deriving DecidableEq, Repr

/-- `isFinite(z)` of JavaScript, on wall elevation bounds. -/
def Elev.isFinite : Elev → Bool
  | .finite _ => true
  | _ => false

/-- A wall as seen by the shadow projector: only its two elevation bounds are
inspected by `scripts/module.js` (`o.t.topZ`, `o.t.bottomZ`); the geometric
data is consumed by the external `Shadow.construct`. -/
structure WallZ where
  topZ : Elev
  bottomZ : Elev
deriving DecidableEq, Repr

/-- The vision source fields read by `scripts/module.js`: position,
elevation and the precomputed 2d LOS polygon. -/
structure VisionSource (σ : Type) where
  x : ℚ
  y : ℚ
  elevationZ : ℚ
  los : σ

/-- The target-token fields read by `testLOSArea`: vertical extent and the
cached constrained shape (`target._constrainedTokenShape`, set lazily in the
source; `none` models an absent cache). -/
structure TargetT (σ : Type) where
  topZ : ℚ
  bottomZ : ℚ
  constrainedTokenShape : Option σ

/-- The ambient configuration and external collaborators of one LOS-area
evaluation: the shape oracles, the `los-percent-area` setting, the debug
flag, the walls the quadtree returns inside the LOS bounds
(`canvas.walls.quadtree.getObjects(bounds, …)` before its `collisionTest`
filter, which the source supplies and is applied below), the external
`Shadow.construct`, and the result of the external `constrainedTokenShape`
computation used when the target cache is empty. -/
structure Env (σ : Type) where
  ops : GeomOps σ
  percentArea : ℚ
  debug : Bool
  wallsInLosBounds : List WallZ
  shadowConstruct : WallZ → VisionSource σ → ℚ → Option σ
  constrainedShapeFallback : σ

/-- Modelled from the spec: `Shadow.combinePolygonWithShadows`
(`scripts/Shadow.js`, not under `src/`).  Spec §4.2: the LOS polygon minus
the union of the shadow polygons, via polygon difference; with no shadows
the polygon is returned unchanged. -/
def combinePolygonWithShadows {σ : Type} (ops : GeomOps σ) (los : σ) (shadows : List σ) : σ :=
  if shadows.isEmpty then los else ops.difference los (ops.unionAll shadows)

/-- `shadowPolygonForElevation` of `scripts/module.js`: for a given LOS
polygon, get the shadows at a given elevation.  The quadtree query applies
the source's `collisionTest`, keeping only walls with at least one finite
elevation bound; with no such wall the LOS polygon is returned unmodified,
otherwise the per-wall shadows (dropping the `null` constructions) are
combined with the LOS polygon. -/
def shadowPolygonForElevation {σ : Type} (env : Env σ) (visionSource : VisionSource σ)
    (targetElevation : ℚ) : σ :=
  let los := visionSource.los
  -- walls := canvas.walls.quadtree.getObjects(los.bounds, { collisionTest })
  -- with collisionTest = (o, rect) => isFinite(o.t.topZ) || isFinite(o.t.bottomZ)
  let walls := env.wallsInLosBounds.filter fun w => w.topZ.isFinite || w.bottomZ.isFinite
  if walls.isEmpty then los
  else
    let shadows := walls.filterMap fun w => env.shadowConstruct w visionSource targetElevation
    combinePolygonWithShadows env.ops los shadows

/-- `testLOSArea` of `scripts/module.js` (with `boundsScale = 1` as in the
source): short-circuit on the prior center-point LOS result against the
50% threshold, then build the constrained shape (cache or the external
computation), compute the elevation shadows for the top and/or bottom plane
of the target, and run the area test on whichever applies. -/
def testLOSArea {σ : Type} (env : Env σ) (visionSource : VisionSource σ)
    (target : TargetT σ) (hasLOS : Bool) : Bool :=
  let percentArea := env.percentArea
  if hasLOS && decide (percentArea < 1/2) then true
  else if !hasLOS && decide (percentArea ≥ 1/2) then false
  else
    let constrained := target.constrainedTokenShape.getD env.constrainedShapeFallback
    let inBetween := decide (visionSource.elevationZ < target.topZ)
      && decide (visionSource.elevationZ > target.bottomZ)
    let shadowLOSBottom : Option σ :=
      if inBetween || decide (visionSource.elevationZ < target.bottomZ) then
        some (shadowPolygonForElevation env visionSource target.bottomZ)
      else none
    let shadowLOSTop : Option σ :=
      if inBetween || decide (visionSource.elevationZ > target.topZ) then
        some (shadowPolygonForElevation env visionSource target.topZ)
      else none
    match shadowLOSTop, shadowLOSBottom with
    | some top, some bottom =>
        (areaTest env.ops env.debug env.percentArea top constrained).fst
          || (areaTest env.ops env.debug env.percentArea bottom constrained).fst
    | some top, none => (areaTest env.ops env.debug env.percentArea top constrained).fst
    | none, some bottom => (areaTest env.ops env.debug env.percentArea bottom constrained).fst
    | none, none => (areaTest env.ops env.debug env.percentArea visionSource.los constrained).fst

/-- `_testRangeDetectionMode` of `scripts/module.js`: `inRange` is the result
of the wrapped 2d Foundry range test; a non-token target or a failed 2d test
returns immediately, otherwise the squared 3d distance from the vision
source to the test point is compared against the squared effective radius
(inclusive).  Returns the boolean together with the recorded debug point
drawings. -/
def testRangeDetectionMode (debug targetIsToken inRange : Bool) (radius : ℚ)
    (sourceX sourceY sourceElevationZ : ℚ) (px py pz : ℚ) :
    Bool × List (DrawCmd Unit) :=
  if !targetIsToken || !inRange then
    (inRange,
      if debug then [DrawCmd.point px py pz (if inRange then Color.green else Color.red)]
      else [])
  else
    let dx := px - sourceX
    let dy := py - sourceY
    let dz := pz - sourceElevationZ
    let inRange3d := decide (dx * dx + dy * dy + dz * dz ≤ radius * radius)
    (inRange3d,
      if debug then [DrawCmd.point px py pz (if inRange3d then Color.green else Color.red)]
      else [])

/-- The `range-algorithm` setting values (`SETTINGS.RANGE.TYPES` of
`scripts/settings.js`): `"range-center"`, `"range-foundry"`,
`"range-foundry-3d"`. -/
inductive RangeAlg
  | center
  | foundry
  | foundry3d
deriving DecidableEq, Repr

/-- A visibility test point (`test.point`, a `Point3d`); `z` is `none` while
the elevation has not been assigned (`test.point.z ??= avgElevation`). -/
structure TestPoint where
  x : ℚ
  y : ℚ
  z : Option ℚ
deriving DecidableEq, Repr

/-- A visibility test object `{ point, los }`; the `los` cache map is only
passed around by identity in the embedded code, so it is modelled by an
identifier. -/
structure TestObj where
  point : TestPoint
  los : Nat
deriving DecidableEq, Repr

/-- `buildTestObject` of `scripts/module.js`: an object with the given
coordinates (elevation always supplied at the call sites) sharing the given
`los` map. -/
def buildTestObject (x y z : ℚ) (los : Nat) : TestObj :=
  { point := { x := x, y := y, z := some z }, los := los }

/-- `elevatePoints` of `scripts/module.js`: for a token target, default each
unset test-point elevation to the target's mid-height, and — only when the
target has height and the `range-foundry-3d` algorithm is selected — replace
every non-center test point by a top and a bottom copy.  (The source indexes
`tests[0]`; the host always supplies at least the center test point, so the
empty list maps to itself.) -/
def elevatePoints (rangeAlg : RangeAlg) (objectIsToken : Bool)
    (topZ bottomZ : ℚ) (tests : List TestObj) : List TestObj :=
  if !objectIsToken then tests
  else
    let objectHeight := topZ - bottomZ
    let avgElevation := bottomZ + objectHeight * (1/2)
    let tests := tests.map fun t =>
      { t with point := { t.point with z := some (t.point.z.getD avgElevation) } }
    if objectHeight = 0 ∨ rangeAlg ≠ RangeAlg.foundry3d then tests
    else
      match tests with
      | [] => []
      | t0 :: rest =>
          t0 :: rest.flatMap fun t =>
            [buildTestObject t.point.x t.point.y topZ t.los,
              buildTestObject t.point.x t.point.y bottomZ t.los]

/-- An axis-aligned `PIXI.Rectangle` (`x`, `y`, `width`, `height`). -/
structure Rect where
  x : ℚ
  y : ℚ
  width : ℚ
  height : ℚ
deriving DecidableEq, Repr

/-- `PIXI.Rectangle#left`. -/
def Rect.left (r : Rect) : ℚ := r.x

/-- `PIXI.Rectangle#right`. -/
def Rect.right (r : Rect) : ℚ := r.x + r.width

/-- `PIXI.Rectangle#top`. -/
def Rect.top (r : Rect) : ℚ := r.y

/-- `PIXI.Rectangle#bottom`. -/
def Rect.bottom (r : Rect) : ℚ := r.y + r.height

/-- `PIXI.Rectangle#pad(paddingX, paddingY)`: grow (or shrink, for negative
padding) the rectangle on all four sides. -/
def Rect.pad (r : Rect) (paddingX paddingY : ℚ) : Rect :=
  { x := r.x - paddingX, y := r.y - paddingY,
    width := r.width + 2 * paddingX, height := r.height + 2 * paddingY }

/-- The four boundary edges of a rectangle, for the concrete
segment-crossing tests. -/
def Rect.edges (r : Rect) : List Seg2 :=
  [⟨⟨r.left, r.top⟩, ⟨r.right, r.top⟩⟩,
    ⟨⟨r.right, r.top⟩, ⟨r.right, r.bottom⟩⟩,
    ⟨⟨r.right, r.bottom⟩, ⟨r.left, r.bottom⟩⟩,
    ⟨⟨r.left, r.bottom⟩, ⟨r.left, r.top⟩⟩]

/-- Strict interior membership in a rectangle. -/
def Rect.containsStrict (r : Rect) (p : Pt2) : Bool :=
  decide (r.left < p.x) && decide (p.x < r.right)
    && decide (r.top < p.y) && decide (p.y < r.bottom)

/-- Modelled from the spec: GeometryLib
`PIXI.Rectangle#lineSegmentIntersects` with `inside: true` (not under
`src/`), instantiated on concrete rectangles for the wall filter of
`constrainedTokenShape`.  Spec §4.3: keep walls that strictly cross the
boundary or lie inside it; endpoint-inclusive tests are excluded, so the
crossing is the strict one and "inside" is strict interior membership of an
endpoint. -/
def rectSegIntersectsInside (r : Rect) (a b : Pt2) : Bool :=
  r.edges.any (fun e => lineSegmentCrosses e.A e.B a b)
    || r.containsStrict a || r.containsStrict b

/-- A `PIXI.Polygon`: `points` is the flat coordinate array
`[x0, y0, x1, y1, …]`. -/
structure Poly where
  points : List ℚ
deriving DecidableEq, Repr

/-- Pair the flat coordinate array up into points (a dangling odd coordinate
is dropped, as `PIXI.Polygon` iteration does). -/
def pairUp : List ℚ → List Pt2
  | x :: y :: rest => ⟨x, y⟩ :: pairUp rest
  | _ => []

/-- Modelled from the spec: GeometryLib `PIXI.Polygon#iteratePoints` with
`close: false` (not under `src/`): the polygon's vertices in order, without
repeating the first one. -/
def Poly.iteratePoints (p : Poly) : List Pt2 := pairUp p.points

/-- The result of `constrainedTokenShape`: either the (possibly scaled)
boundary rectangle or the wall-constrained sweep polygon. -/
inductive TokenShape
  | rect (r : Rect)
  | poly (p : Poly)
deriving DecidableEq, Repr

/-- The per-point condition of the collapse loop of `constrainedTokenShape`
(`scripts/module.js` lines 661–664), exactly as written in the source —
note that the third comparison reads `pt.x` (not `pt.y`) against
`bbox.top`. -/
def collapsePointOk (bbox : Rect) (pt : Pt2) : Bool :=
  (almostEqual pt.x bbox.left || almostEqual pt.x bbox.right)
    && (almostEqual pt.x bbox.top || almostEqual pt.y bbox.bottom)

/-- `constrainedTokenShape` of `scripts/module.js`: trim the token bounds to
the portion not separated from the token center by a wall.
`wallsNear` is the external quadtree query result
(`canvas.walls.quadtree.getObjects(bbox)`) and `sweep` the polygon computed
by the external `ClockwiseSweepPolygon` seeded at the token center with the
bounds as the only boundary shape (spec §6 `unobstructedRegion`). -/
def constrainedTokenShape (wallsNear : List Seg2) (sweep : Poly)
    (bounds : Rect) (boundsScale : ℚ) : TokenShape :=
  let bbox :=
    if boundsScale ≠ 1 then
      -- scalar := boundsScale - 1; pad by Math.ceil(width·scalar), Math.ceil(height·scalar)
      let scalar := boundsScale - 1
      bounds.pad (⌈bounds.width * scalar⌉ : ℚ) (⌈bounds.height * scalar⌉ : ℚ)
    else bounds
  if wallsNear.isEmpty then TokenShape.rect bbox
  else
    -- Only care about walls that strictly intersect the bbox or are inside the bbox.
    let walls := wallsNear.filter fun w => rectSegIntersectsInside bbox w.A w.B
    -- Don't include walls that are in line with a boundary edge.
    let walls := walls.filter fun w =>
      !(decide (w.A.x = w.B.x) && (decide (w.A.x = bbox.left) || decide (w.A.x = bbox.right)))
        && !(decide (w.A.y = w.B.y) && (decide (w.A.y = bbox.top) || decide (w.A.y = bbox.bottom)))
    if walls.isEmpty then TokenShape.rect bbox
    else
      if sweep.points.length ≠ 10 then TokenShape.poly sweep
      else if (sweep.iteratePoints).all (collapsePointOk bbox) then TokenShape.rect bbox
      else TokenShape.poly sweep

/-- The spec-side notion for C3 (spec §4.3): a vertex lies on one of the
rectangle's own edges. -/
def specOnRectBoundary (r : Rect) (p : Pt2) : Bool :=
  (almostEqual p.x r.left || almostEqual p.x r.right)
      && decide (r.top ≤ p.y) && decide (p.y ≤ r.bottom)
    || (almostEqual p.y r.top || almostEqual p.y r.bottom)
      && decide (r.left ≤ p.x) && decide (p.x ≤ r.right)

/-- A wall survives both wall filters of `constrainedTokenShape`
(`scripts/module.js` lines 640–648): it strictly intersects or lies inside
the bounding box and is not in line with one of its boundary edges. -/
def wallQualifies (bbox : Rect) (w : Seg2) : Bool :=
  rectSegIntersectsInside bbox w.A w.B
    && (!(decide (w.A.x = w.B.x) && (decide (w.A.x = bbox.left) || decide (w.A.x = bbox.right)))
        && !(decide (w.A.y = w.B.y) && (decide (w.A.y = bbox.top) || decide (w.A.y = bbox.bottom))))

/-- A concrete shape instantiation for evaluating the oracle-parametrised
functions on closed inputs: a host shape is identified with its area,
intersection takes the minimum, difference subtracts, union sums, and no
shape is a `ClipperPaths` or a `PIXI.Rectangle`. -/
def ratOps : GeomOps ℚ where
  isClipperPaths := fun _ => false
  isRectangle := fun _ => false
  simplify := id
  area := id
  intersectPolygon := fun a b => if a ≤ b then a else b
  toPolygon := id
  getBounds := id
  iterateEdges := fun _ => []
  containsPoint := fun _ _ => false
  toPolygons := fun _ => []
  difference := fun a b => a - b
  unionAll := fun l => l.foldl (· + ·) 0

/-- Like `ratOps`, but every shape is a `ClipperPaths` that stays a
`ClipperPaths` under `simplify` (a multi-contour region). -/
def clipOps : GeomOps ℚ := { ratOps with isClipperPaths := fun _ => true }

/-- A concrete vision source at elevation 5 with LOS region of area 100. -/
def ratVS : VisionSource ℚ := { x := 0, y := 0, elevationZ := 5, los := 100 }

/-- A concrete target spanning elevations 0–10 with no cached shape. -/
def ratTarget : TargetT ℚ := { topZ := 10, bottomZ := 0, constrainedTokenShape := none }

/-- A concrete environment with a 25% area requirement and no walls. -/
def ratEnvLow : Env ℚ :=
  { ops := ratOps, percentArea := 1/4, debug := false, wallsInLosBounds := [],
    shadowConstruct := fun _ _ _ => none, constrainedShapeFallback := 100 }

/-- A concrete environment with a 75% area requirement and no walls. -/
def ratEnvHigh : Env ℚ := { ratEnvLow with percentArea := 3/4 }

/-- A concrete environment for the in-between scenario: 50% area
requirement, one wall with a finite top elevation whose shadow leaves a
visible area of 60 at elevation 10 and of 20 at other elevations, and a
constrained footprint of area 100. -/
def c5Env : Env ℚ :=
  { ops := ratOps, percentArea := 1/2, debug := false,
    wallsInLosBounds := [⟨Elev.finite 3, Elev.negInf⟩],
    shadowConstruct := fun _ _ e => some (if e = 10 then 40 else 80),
    constrainedShapeFallback := 100 }

/-- A concrete environment whose only nearby wall has both elevation bounds
infinite. -/
def c8EnvInf : Env ℚ :=
  { ops := ratOps, percentArea := 0, debug := false,
    wallsInLosBounds := [⟨Elev.posInf, Elev.negInf⟩],
    shadowConstruct := fun _ _ _ => some 40, constrainedShapeFallback := 100 }

/-- A 100×100 boundary rectangle at the origin. -/
def c3rect : Rect := { x := 0, y := 0, width := 100, height := 100 }

/-- A vertical wall crossing `c3rect` from above its top edge to below its
bottom edge (it survives both wall filters). -/
def c3wall : Seg2 := ⟨⟨50, -10⟩, ⟨50, 110⟩⟩

/-- A wall lying exactly in line with the top boundary edge of `c3rect`. -/
def c6wall : Seg2 := ⟨⟨0, 0⟩, ⟨100, 0⟩⟩

/-- A four-vertex sweep polygon whose vertices are exactly the four corners
of `c3rect` (eight coordinates, so the count-10 collapse gate fails). -/
def c3sweep : Poly := { points := [0, 0, 100, 0, 100, 100, 0, 100] }

/-- A five-vertex sweep polygon, all vertices on the left edge of `c3rect`
(ten coordinates, and every vertex passes the source's collapse
condition because `c3rect.left = c3rect.top = 0`). -/
def c3sweep5 : Poly := { points := [0, 0, 0, 50, 0, 100, 0, 30, 0, 70] }

theorem ratAbs_of_nonneg {q : ℚ} (h : 0 ≤ q) : ratAbs q = q := by
  unfold ratAbs
  rw [if_neg (not_lt.mpr h)]

/-- C1: for every LOS region and constrained footprint with required
fraction `p > 0` (so `s` is the intersection area and `t` the footprint
area, with `0 ≤ s ≤ t` as holds for real regions), `areaTest` reports
not-visible when the intersection area is zero within epsilon or the
footprint area is zero, and otherwise reports visible iff
`ratio = s / t` satisfies `ratio > p` or `ratio` is almost-equal to `p`
(inclusive threshold). -/
theorem C1_areaTest_ratio_threshold {σ : Type} (ops : GeomOps σ) (debug : Bool)
    (p s t : ℚ) (los c : σ)
    (hseen : ops.area (intersectConstrainedShapeWithLOS ops c los) = s)
    (htok : ops.area c = t)
    (hp : 0 < p) (hs0 : 0 ≤ s) (hst : s ≤ t) :
    ((almostEqual s 0 = true ∨ t = 0) → (areaTest ops debug p los c).fst = false)
    ∧ (almostEqual s 0 = false →
        ((areaTest ops debug p los c).fst = true
          ↔ (s / t > p ∨ almostEqual (s / t) p = true))) := by
  have hne : p ≠ 0 := ne_of_gt hp
  simp only [areaTest, if_neg hne]
  constructor
  · rintro (hae | ht0)
    · simp only [areaTestRatio, hseen]
      rw [if_pos (Or.inr hae)]
    · have hs : s = 0 := le_antisymm (by rw [← ht0]; exact hst) hs0
      simp only [areaTestRatio, hseen]
      rw [if_pos (Or.inl hs)]
  · intro hae
    have hsε : EPSILON ≤ s := by
      by_contra hlt
      push_neg at hlt
      have : almostEqual s 0 = true := by
        simp only [almostEqual, sub_zero, decide_eq_true_eq]
        rwa [ratAbs_of_nonneg hs0]
      rw [this] at hae
      exact Bool.noConfusion hae
    have hεpos : (0 : ℚ) < EPSILON := by norm_num [EPSILON]
    have hspos : 0 < s := lt_of_lt_of_le hεpos hsε
    have htpos : 0 < t := lt_of_lt_of_le hspos hst
    have htae : ¬(t = 0 ∨ almostEqual t 0 = true) := by
      rintro (h | h)
      · exact absurd h (ne_of_gt htpos)
      · simp only [almostEqual, sub_zero, decide_eq_true_eq] at h
        rw [ratAbs_of_nonneg (le_of_lt htpos)] at h
        exact absurd (lt_of_le_of_lt (le_trans hsε hst) h) (lt_irrefl _)
    have hsae : ¬(s = 0 ∨ almostEqual s 0 = true) := by
      rintro (h | h)
      · exact absurd h (ne_of_gt hspos)
      · rw [h] at hae; exact Bool.noConfusion hae
    simp only [areaTestRatio, hseen, htok, if_neg hsae, if_neg htae]
    simp [Bool.or_eq_true, decide_eq_true_eq]

/-- C1 witness: footprint area 100, intersection area 50, `p = 0.5` yields
visible = true (ratio exactly 0.5, inclusive boundary). -/
theorem C1_witness : (areaTest ratOps false (1/2) (50 : ℚ) (100 : ℚ)).fst = true := by
  have h := C1_areaTest_ratio_threshold ratOps false (1/2) 50 100 (50 : ℚ) (100 : ℚ)
    (by norm_num [ratOps, intersectConstrainedShapeWithLOS])
    (by norm_num [ratOps]) (by norm_num) (by norm_num) (by norm_num)
  exact (h.2 (by norm_num [almostEqual, ratAbs, EPSILON])).mpr
    (Or.inr (by norm_num [almostEqual, ratAbs, EPSILON]))

/-- C2: for every LOS-area evaluation, a required area fraction below 0.5
together with a successful center-point LOS test returns visible, and a
required fraction of at least 0.5 together with a failed center-point test
returns not-visible — in both cases for every environment, so independently
of every oracle the constrained-shape construction, shadow computation and
area test (the expensive polygon clipping) would consult. -/
theorem C2_testLOSArea_shortcircuit {σ : Type} (env : Env σ)
    (visionSource : VisionSource σ) (target : TargetT σ) :
    (env.percentArea < 1/2 → testLOSArea env visionSource target true = true)
    ∧ (1/2 ≤ env.percentArea → testLOSArea env visionSource target false = false) := by
  constructor
  · intro h
    simp only [testLOSArea]
    rw [if_pos (show (true && decide (env.percentArea < 1/2)) = true by
      simp only [Bool.true_and, decide_eq_true_eq]; exact h)]
  · intro h
    simp only [testLOSArea]
    rw [if_neg (show ¬((false && decide (env.percentArea < 1/2)) = true) by simp),
      if_pos (show (!false && decide (env.percentArea ≥ 1/2)) = true by
        simp only [Bool.not_false, Bool.true_and, decide_eq_true_eq]; exact h)]

/-- C2 witness: `p = 1/4` with a successful center test accepts cheaply;
`p = 3/4` with a failed center test rejects cheaply. -/
theorem C2_witness :
    testLOSArea ratEnvLow ratVS ratTarget true = true
    ∧ testLOSArea ratEnvHigh ratVS ratTarget false = false :=
  ⟨(C2_testLOSArea_shortcircuit ratEnvLow ratVS ratTarget).1
      (by norm_num [ratEnvLow]),
    (C2_testLOSArea_shortcircuit ratEnvHigh ratVS ratTarget).2
      (by norm_num [ratEnvHigh, ratEnvLow])⟩

/-- C4: for every 3d range test of a token test point, a failed 2d inclusion
test returns not-in-range for every radius and every point elevation (the 3d
distance computation is never consulted), and a successful 2d test is
in-range exactly when the squared 3d distance does not exceed the squared
radius (inclusive boundary). -/
theorem C4_testRange_3d (debug : Bool) (radius sx sy sz px py pz : ℚ) :
    (testRangeDetectionMode debug true false radius sx sy sz px py pz).fst = false
    ∧ ((testRangeDetectionMode debug true true radius sx sy sz px py pz).fst = true
        ↔ (px - sx) * (px - sx) + (py - sy) * (py - sy) + (pz - sz) * (pz - sz)
            ≤ radius * radius) := by
  constructor
  · simp [testRangeDetectionMode]
  · simp [testRangeDetectionMode]

theorem areaTest_fst_debug {σ : Type} (ops : GeomOps σ) (d₁ d₂ : Bool) (p : ℚ)
    (los c : σ) : (areaTest ops d₁ p los c).fst = (areaTest ops d₂ p los c).fst := by
  simp only [areaTest, areaTestRatio]
  split_ifs <;> rfl

theorem testLOSArea_debug {σ : Type} (env : Env σ) (d : Bool)
    (visionSource : VisionSource σ) (target : TargetT σ) (hasLOS : Bool) :
    testLOSArea { env with debug := d } visionSource target hasLOS
      = testLOSArea env visionSource target hasLOS := by
  obtain ⟨ops, p, d₀, walls, sc, cf⟩ := env
  simp only [testLOSArea, shadowPolygonForElevation, combinePolygonWithShadows]
  split_ifs <;>
    simp only [areaTest_fst_debug ops d d₀]

/-- C9: the returned boolean of the area test, the range test and the
LOS-area test is the same for every state of the debug flag — the debug
drawing side effects (the second component / the drawing list) never alter
the returned value. -/
theorem C9_debug_purity {σ : Type} (ops : GeomOps σ) (p : ℚ) (los c : σ)
    (targetIsToken inRange : Bool) (radius sx sy sz px py pz : ℚ)
    (env : Env σ) (visionSource : VisionSource σ) (target : TargetT σ) (hasLOS : Bool) :
    (areaTest ops true p los c).fst = (areaTest ops false p los c).fst
    ∧ (testRangeDetectionMode true targetIsToken inRange radius sx sy sz px py pz).fst
        = (testRangeDetectionMode false targetIsToken inRange radius sx sy sz px py pz).fst
    ∧ testLOSArea { env with debug := true } visionSource target hasLOS
        = testLOSArea { env with debug := false } visionSource target hasLOS := by
  refine ⟨areaTest_fst_debug ops true false p los c, ?_, ?_⟩
  · simp only [testRangeDetectionMode]
    split_ifs <;> rfl
  · rw [testLOSArea_debug env true, testLOSArea_debug env false]

/-- C5: when the observer's elevation is strictly between the target's
bottom and top elevations (and neither short-circuit guard applies, so the
area test actually runs), shadow polygons are computed for both the target's
top plane and bottom plane, and the evaluation is visible iff either of the
two area tests passes. -/
theorem C5_testLOSArea_inBetween {σ : Type} (env : Env σ)
    (visionSource : VisionSource σ) (target : TargetT σ) (hasLOS : Bool)
    (hb : target.bottomZ < visionSource.elevationZ)
    (ht : visionSource.elevationZ < target.topZ)
    (hguard : (hasLOS = true ∧ 1/2 ≤ env.percentArea)
      ∨ (hasLOS = false ∧ env.percentArea < 1/2)) :
    testLOSArea env visionSource target hasLOS
      = ((areaTest env.ops env.debug env.percentArea
            (shadowPolygonForElevation env visionSource target.topZ)
            (target.constrainedTokenShape.getD env.constrainedShapeFallback)).fst
        || (areaTest env.ops env.debug env.percentArea
            (shadowPolygonForElevation env visionSource target.bottomZ)
            (target.constrainedTokenShape.getD env.constrainedShapeFallback)).fst) := by
  simp only [testLOSArea]
  have hib : (decide (visionSource.elevationZ < target.topZ)
      && decide (visionSource.elevationZ > target.bottomZ)) = true := by
    simp only [Bool.and_eq_true, decide_eq_true_eq]
    exact ⟨ht, hb⟩
  rcases hguard with ⟨h1, h2⟩ | ⟨h1, h2⟩ <;> subst h1
  · rw [if_neg (show ¬((true && decide (env.percentArea < 1/2)) = true) by
        simp only [Bool.true_and, decide_eq_true_eq]; exact not_lt.mpr h2),
      if_neg (show ¬((!true && decide (env.percentArea ≥ 1/2)) = true) by simp)]
    rw [hib]
    simp
  · rw [if_neg (show ¬((false && decide (env.percentArea < 1/2)) = true) by simp),
      if_neg (show ¬((!false && decide (env.percentArea ≥ 1/2)) = true) by
        simp only [Bool.not_false, Bool.true_and, decide_eq_true_eq]
        exact not_le.mpr h2)]
    rw [hib]
    simp

/-- C5 witness: observer elevation 5 strictly between target bottom 0 and
top 10; the shadow at the top plane leaves a visible ratio of 0.6 and the
shadow at the bottom plane one of 0.2; with `p = 0.5` the overall result is
visible. -/
theorem C5_witness : testLOSArea c5Env ratVS ratTarget true = true := by
  rw [C5_testLOSArea_inBetween c5Env ratVS ratTarget true
    (by norm_num [ratVS, ratTarget]) (by norm_num [ratVS, ratTarget])
    (Or.inl ⟨rfl, by norm_num [c5Env]⟩)]
  norm_num [c5Env, ratVS, ratTarget, ratOps, shadowPolygonForElevation,
    combinePolygonWithShadows, areaTest, areaTestRatio,
    intersectConstrainedShapeWithLOS, almostEqual, ratAbs, EPSILON, Elev.isFinite,
    List.filterMap_cons, List.filterMap_nil, List.foldl_cons, List.foldl_nil,
    List.filter_cons, List.filter_nil, List.isEmpty_nil, Option.getD_none,
    Option.getD_some]

/-- C8: `shadowPolygonForElevation` returns the LOS polygon unmodified when
no wall in the LOS bounding box has at least one finite height bound (walls
with both bounds infinite never contribute a separate shadow); otherwise it
returns the LOS polygon combined with (minus the union of) the per-wall
shadow polygons of the qualifying walls. -/
theorem C8_shadowPolygon_walls {σ : Type} (env : Env σ)
    (visionSource : VisionSource σ) (targetElevation : ℚ) :
    ((env.wallsInLosBounds.filter fun w => w.topZ.isFinite || w.bottomZ.isFinite) = [] →
      shadowPolygonForElevation env visionSource targetElevation = visionSource.los)
    ∧ ((env.wallsInLosBounds.filter fun w => w.topZ.isFinite || w.bottomZ.isFinite) ≠ [] →
      shadowPolygonForElevation env visionSource targetElevation
        = combinePolygonWithShadows env.ops visionSource.los
            ((env.wallsInLosBounds.filter fun w => w.topZ.isFinite || w.bottomZ.isFinite).filterMap
              fun w => env.shadowConstruct w visionSource targetElevation)) := by
  constructor
  · intro h
    simp only [shadowPolygonForElevation, h]
    rfl
  · intro h
    simp only [shadowPolygonForElevation]
    rw [if_neg]
    simp only [List.isEmpty_iff]
    exact h

/-- C8 witness: a lone wall with both elevation bounds infinite leaves the
LOS polygon unmodified, while a wall with a finite top bound yields the LOS
polygon combined with its shadow. -/
theorem C8_witness :
    shadowPolygonForElevation c8EnvInf ratVS 10 = ratVS.los
    ∧ shadowPolygonForElevation c5Env ratVS 10
      = combinePolygonWithShadows c5Env.ops ratVS.los
          ((c5Env.wallsInLosBounds.filter fun w => w.topZ.isFinite || w.bottomZ.isFinite).filterMap
            fun w => c5Env.shadowConstruct w ratVS 10) :=
  ⟨(C8_shadowPolygon_walls c8EnvInf ratVS 10).1
      (by simp [c8EnvInf, Elev.isFinite]),
    (C8_shadowPolygon_walls c5Env ratVS 10).2
      (by simp [c5Env, Elev.isFinite])⟩

/-- C6: with scale factor 1, if no queried wall qualifies — none strictly
crosses or lies inside the boundary (endpoint-merely-touching excluded) and
those exactly colinear with a boundary edge are excluded — then
`constrainedTokenShape` returns the boundary rectangle itself unchanged. -/
theorem C6_constrained_identity (wallsNear : List Seg2) (sweep : Poly) (bounds : Rect)
    (h : ∀ w ∈ wallsNear, wallQualifies bounds w = false) :
    constrainedTokenShape wallsNear sweep bounds 1 = TokenShape.rect bounds := by
  simp only [constrainedTokenShape]
  rw [if_neg (show ¬((1:ℚ) ≠ 1) by simp)]
  by_cases hW : wallsNear.isEmpty
  · rw [if_pos hW]
  · rw [if_neg hW]
    have hfil : ((wallsNear.filter fun w => rectSegIntersectsInside bounds w.A w.B).filter fun w =>
        !(decide (w.A.x = w.B.x) && (decide (w.A.x = bounds.left) || decide (w.A.x = bounds.right)))
          && !(decide (w.A.y = w.B.y) && (decide (w.A.y = bounds.top) || decide (w.A.y = bounds.bottom)))) = [] := by
      rw [List.filter_eq_nil_iff]
      intro w hw
      rw [List.mem_filter] at hw
      have hq := h w hw.1
      unfold wallQualifies at hq
      rw [hw.2, Bool.true_and] at hq
      rw [hq]
      simp
    rw [hfil]
    simp

/-- C6 witness: a wall lying exactly in line with the top boundary edge does
not qualify, so the footprint is the rectangle unchanged. -/
theorem C6_witness : constrainedTokenShape [c6wall] c3sweep c3rect 1 = TokenShape.rect c3rect :=
  C6_constrained_identity [c6wall] c3sweep c3rect (by
    intro w hw
    rw [List.mem_singleton] at hw
    subst hw
    norm_num [wallQualifies, c6wall, c3rect, rectSegIntersectsInside, Rect.edges,
      Rect.containsStrict, Rect.left, Rect.right, Rect.top, Rect.bottom,
      lineSegmentCrosses, orient, List.any_cons, List.any_nil])

/-- C3 counterexample: every vertex of the four-corner sweep polygon lies on
the boundary rectangle's own edges (the polygon is geometrically
indistinguishable from the rectangle), yet `constrainedTokenShape` returns
the polygon, because the coordinate count is 8 rather than 10. -/
theorem C3_counterexample :
    (c3sweep.iteratePoints).all (specOnRectBoundary c3rect) = true
    ∧ constrainedTokenShape [c3wall] c3sweep c3rect 1 ≠ TokenShape.rect c3rect := by
  constructor
  · norm_num [c3sweep, Poly.iteratePoints, pairUp, specOnRectBoundary, c3rect,
      almostEqual, ratAbs, EPSILON, Rect.left, Rect.right, Rect.top, Rect.bottom,
      List.all_cons, List.all_nil]
  · have hpoly : constrainedTokenShape [c3wall] c3sweep c3rect 1 = TokenShape.poly c3sweep := by
      norm_num [constrainedTokenShape, c3wall, c3rect, c3sweep, rectSegIntersectsInside,
        Rect.edges, Rect.containsStrict, Rect.left, Rect.right, Rect.top, Rect.bottom,
        lineSegmentCrosses, orient, List.filter_cons, List.filter_nil, List.any_cons,
        List.any_nil, Poly.iteratePoints, pairUp]
    rw [hpoly]
    intro hcon
    exact TokenShape.noConfusion hcon

/-- C3 (amended): once walls qualify and the sweep runs,
`constrainedTokenShape` returns the rectangle exactly when the sweep polygon
has precisely 10 coordinate values (5 vertices) and every vertex `pt`
satisfies the source's literal condition
`(pt.x ≈ left ∨ pt.x ≈ right) ∧ (pt.x ≈ top ∨ pt.y ≈ bottom)`
(note `pt.x` against `top`); being geometrically indistinguishable from the
rectangle is neither necessary nor sufficient. -/
theorem C3_amended (wallsNear : List Seg2) (sweep : Poly) (bounds : Rect)
    (hw : ((wallsNear.filter fun w => rectSegIntersectsInside bounds w.A w.B).filter fun w =>
        !(decide (w.A.x = w.B.x) && (decide (w.A.x = bounds.left) || decide (w.A.x = bounds.right)))
          && !(decide (w.A.y = w.B.y) && (decide (w.A.y = bounds.top) || decide (w.A.y = bounds.bottom)))) ≠ []) :
    constrainedTokenShape wallsNear sweep bounds 1 = TokenShape.rect bounds
      ↔ (sweep.points.length = 10
          ∧ (sweep.iteratePoints).all (collapsePointOk bounds) = true) := by
  have hnem : ¬(wallsNear.isEmpty = true) := by
    intro hE
    rw [List.isEmpty_iff] at hE
    subst hE
    simp at hw
  simp only [constrainedTokenShape]
  rw [if_neg (show ¬((1:ℚ) ≠ 1) by simp), if_neg hnem,
    if_neg (show ¬(_ = true) by rw [List.isEmpty_iff]; exact hw)]
  by_cases hlen : sweep.points.length ≠ 10
  · rw [if_pos hlen]
    constructor
    · intro hcon; simp at hcon
    · rintro ⟨h10, _⟩; exact absurd h10 hlen
  · rw [if_neg hlen]
    push_neg at hlen
    by_cases hall : (sweep.iteratePoints).all (collapsePointOk bounds) = true
    · rw [if_pos hall]
      simp [hlen, hall]
    · rw [if_neg hall]
      constructor
      · intro hcon; simp at hcon
      · rintro ⟨_, hA⟩; exact absurd hA hall

/-- C3 (amended) witness: a ten-coordinate sweep polygon whose five vertices
all satisfy the source's literal collapse condition makes
`constrainedTokenShape` return the rectangle. -/
theorem C3_amended_witness :
    constrainedTokenShape [c3wall] c3sweep5 c3rect 1 = TokenShape.rect c3rect := by
  rw [C3_amended [c3wall] c3sweep5 c3rect (by
    norm_num [c3wall, c3rect, rectSegIntersectsInside, Rect.edges, Rect.containsStrict,
      Rect.left, Rect.right, Rect.top, Rect.bottom, lineSegmentCrosses, orient,
      List.filter_cons, List.filter_nil, List.any_cons, List.any_nil])]
  constructor
  · norm_num [c3sweep5]
  · norm_num [c3sweep5, Poly.iteratePoints, pairUp, collapsePointOk, c3rect,
      almostEqual, ratAbs, EPSILON, Rect.left, Rect.right, Rect.top, Rect.bottom,
      List.all_cons, List.all_nil]

/-- C7 counterexample: with a multi-contour (ClipperPaths) LOS region that
is still a ClipperPaths after simplification, `areaTest` at `p = 0` is NOT
decided by the boundary-crossing test: the crossing test reports no crossing
here, yet `areaTest` reports visible via the area-ratio fall-through. -/
theorem C7_counterexample :
    (areaTest clipOps false 0 (50 : ℚ) (100 : ℚ)).fst = true
    ∧ sourceIntersectsPolygonBounds clipOps (50 : ℚ) (100 : ℚ) = false := by
  constructor
  · norm_num [areaTest, areaTestRatio, clipOps, ratOps, intersectConstrainedShapeWithLOS,
      almostEqual, ratAbs, EPSILON]
  · norm_num [sourceIntersectsPolygonBounds, linesCross, clipOps, ratOps,
      List.any_nil, List.filter_nil]

/-- C7 (amended): when `p == 0` and the LOS region — after clipper
simplification — is not a multi-contour ClipperPaths region, visibility is
decided by the boundary-crossing test `sourceIntersectsPolygonBounds`, whose
underlying crossing predicate is strict: whenever any endpoint of either
segment is colinear with the other segment (covering overlapping colinear
edges and endpoints merely touching the other boundary), the crossing
predicate reports no crossing. -/
theorem C7_area_zero_crossing {σ : Type} (ops : GeomOps σ) (debug : Bool) (los c : σ)
    (hclip : ops.isClipperPaths (if ops.isClipperPaths los then ops.simplify los else los)
      = false) :
    (areaTest ops debug 0 los c).fst
      = sourceIntersectsPolygonBounds ops
          (if ops.isClipperPaths los then ops.simplify los else los) c
    ∧ (∀ a b c' d : Pt2,
        (orient a b c' = 0 ∨ orient a b d = 0 ∨ orient c' d a = 0 ∨ orient c' d b = 0) →
        lineSegmentCrosses a b c' d = false) := by
  constructor
  · simp only [areaTest, if_pos rfl, hclip, Bool.not_false, if_true]
  · rintro a b c' d (h | h | h | h) <;>
      simp [lineSegmentCrosses, h]

/-- C7 (amended) witness: a polygon LOS region at `p = 0` is decided by the
crossing test, and a segment with an endpoint touching the other segment is
not a crossing. -/
theorem C7_witness :
    (areaTest ratOps false 0 (50 : ℚ) (100 : ℚ)).fst
        = sourceIntersectsPolygonBounds ratOps (50 : ℚ) (100 : ℚ)
    ∧ lineSegmentCrosses ⟨0, 0⟩ ⟨1, 0⟩ ⟨0, 0⟩ ⟨2, 2⟩ = false := by
  have h := C7_area_zero_crossing ratOps false (50 : ℚ) (100 : ℚ) (by norm_num [ratOps])
  exact ⟨h.1, h.2 ⟨0, 0⟩ ⟨1, 0⟩ ⟨0, 0⟩ ⟨2, 2⟩ (Or.inl (by norm_num [orient]))⟩

/-- C10: for a token target, test-point preparation assigns each test point
whose z coordinate is unset the target's mid-height elevation
`bottomZ + (topZ − bottomZ)/2`, and when the target has zero height or the
range algorithm is not the 3d variant, the test list is returned with no
extra points added — only the z defaults applied. -/
theorem C10_elevatePoints_defaults (rangeAlg : RangeAlg) (topZ bottomZ : ℚ)
    (tests : List TestObj)
    (h : topZ - bottomZ = 0 ∨ rangeAlg ≠ RangeAlg.foundry3d) :
    elevatePoints rangeAlg true topZ bottomZ tests
      = tests.map (fun t =>
          { t with point := { t.point with
              z := some (t.point.z.getD (bottomZ + (topZ - bottomZ) * (1/2))) } })
    ∧ ∀ t : TestObj, t.point.z = none →
        ({ t with point := { t.point with
            z := some (t.point.z.getD (bottomZ + (topZ - bottomZ) * (1/2))) } }).point.z
          = some (bottomZ + (topZ - bottomZ) / 2) := by
  constructor
  · simp only [elevatePoints, Bool.not_true]
    rw [if_neg (by simp), if_pos h]
  · intro t ht
    simp only [ht, Option.getD_none]
    congr 1
    ring

/-- C10 witness: a point with unset z under a non-3d range algorithm gets
the mid-height elevation 5 of a target spanning 0–10, and nothing else
changes. -/
theorem C10_witness :
    elevatePoints RangeAlg.foundry true 10 0 [⟨⟨1, 2, none⟩, 0⟩]
      = [⟨⟨1, 2, some 5⟩, 0⟩] := by
  rw [(C10_elevatePoints_defaults RangeAlg.foundry 10 0 [⟨⟨1, 2, none⟩, 0⟩]
    (Or.inr (by simp))).1]
  norm_num

end TokenVisibility
